import Mathlib

/-!
Verification of the twms tile-map proxy core against its specification.

The definitions below are shallow embeddings of the Python sources:

* `Twms.normalize`, `Twms.add`, `Twms.add_legacy`, `Twms.point_is_in`
  embed `src/twms/bbox.py` and the legacy `src/bbox.py` (rationals stand
  for Python floats; every operation used here is exact decimal/field
  arithmetic, so no rounding is lost).
* `Twms.TileFile.set` and `Twms.TileFile.needs_fetch` embed the
  filesystem tile cache of `src/twms/fetchers.py` (class `TileFile`).
  The filesystem state visible to one tile key is a `TileState`:
  the optional image file (content bytes and mtime) and the optional
  TNE marker file (mtime).  `Path.write_bytes`, `Path.unlink`,
  `Path.touch` and `Path.exists`/`stat` act on that record.
* `Twms.HttpSessionDirector.get` together with `Twms.retry_loop` embeds
  the `retry_opener` decorator applied to `HttpSessionDirector.get`
  (lines 140-230 of `src/twms/fetchers.py`).  The network is an oracle
  `outcomes : Nat -> NetOutcome` giving the result of the i-th call of
  `opener_director.open`; `get` suppresses `HTTPError` by returning the
  response object, so the wrapper only ever retries `URLError` and
  `TimeoutError` (modeled as `NetOutcome.transport`).  The model also
  returns the list of back-off sleeps performed and the number of
  attempts made, so the retry policy can be stated.
* `Twms.TileFetcher.tms` embeds the per-layer fetch algorithm
  (`TileFetcher.tms`, lines 258-421 of `src/twms/fetchers.py`).
  Pure library functions that the algorithm merely composes are
  oracles: `md5` (hashlib), `decode` (PIL.Image.open + load, `none`
  for `PIL.UnidentifiedImageError`), `convert` (`im_convert`).  The
  upstream GET result is passed in as `Option HttpResp` (`none` is the
  `urllib.error.URLError` path after retries).  URL template
  substitution only builds the request string and is irrelevant to the
  claims, so the tile coordinates other than the zoom gate are not
  modeled.
* `Twms.ImageryHandler.tile_image` embeds the coordinate handling of
  `ImageryHandler.tile_image` (lines 413-436 of `src/twms/twms.py`):
  the silent wrap `x = x % (2 ** (z - 1))` and the rejection of out of
  range `y`.  Everything from line 428 on (bbox intersection test, LRU,
  disk cache, downscale, fetcher, upscale) is a deterministic function
  of the layer state and the already reduced coordinates; it is
  abstracted as `rest`.  The handler enters this function with the
  internal zoom `z + 1` (line 121 of `src/twms/twms.py` adds one to the
  request zoom), which is why the wrap modulus reads `2 ** (z - 1)`.
* The projection math of `src/twms/projections.py` is embedded over the
  real numbers (the idealisation of Python floats): `Twms.c4326t3857`,
  `Twms.c3857t4326`, `Twms.c4326t3395`, `Twms.c3395t4326`,
  `Twms.coords_by_tile`, `Twms.tile_by_coords`, `Twms.bbox_by_tile`,
  `Twms.tile_by_bbox`.  The supported projections (spec section 4.2)
  are the inductive `Twms.SRS`; the `transform` list plumbing is
  specialised to the single points and flat 4-tuples actually used by
  the tile math (`from4326point`, `to4326point`, `from4326bbox`),
  including the early return for equal source and target projections.
-/

namespace Twms

/-! ## BBox utilities, from src/twms/bbox.py and legacy src/bbox.py -/

/-- Four-tuple (lon_min, lat_min, lon_max, lat_max) over exact rationals. -/
abbrev QBbox := ℚ × ℚ × ℚ × ℚ

/-- From src/twms/bbox.py, `point_is_in`: membership of an EPSG:4326 point. -/
def point_is_in (bbox : QBbox) (point : ℚ × ℚ) : Bool :=
  decide (point.1 ≥ bbox.1 ∧ point.1 ≤ bbox.2.2.1
    ∧ point.2 ≥ bbox.2.1 ∧ point.2 ≤ bbox.2.2.2)

/-- From src/twms/bbox.py, `add`: the bbox containing two bboxes. -/
def add (b1 b2 : QBbox) : QBbox :=
  (min b1.1 b2.1, min b1.2.1 b2.2.1, max b1.2.2.1 b2.2.2.1, max b1.2.2.2 b2.2.2.2)

/-- From the legacy src/bbox.py, `add`: note that the fourth component is
`min(b1[3], b2[3])`, not `max`. -/
def add_legacy (b1 b2 : QBbox) : QBbox :=
  (min b1.1 b2.1, min b1.2.1 b2.2.1, max b1.2.2.1 b2.2.2.1, min b1.2.2.2 b2.2.2.2)

/-- The `while bbox[0] < -180: bbox[0] += 360; bbox[2] += 360` loop at the
start of `normalize` (src/twms/bbox.py lines 56-58). -/
def normLoop (b0 b2 : ℚ) : ℚ × ℚ :=
  if b0 < -180 then normLoop (b0 + 360) (b2 + 360) else (b0, b2)
termination_by (⌈(-180 : ℚ) - b0⌉).toNat
decreasing_by
  have hpos : (0 : ℚ) < -180 - b0 := by linarith
  have h1 : (0 : ℤ) < ⌈(-180 : ℚ) - b0⌉ := Int.ceil_pos.mpr hpos
  have h2 : ⌈(-180 : ℚ) - (b0 + 360)⌉ = ⌈(-180 : ℚ) - b0⌉ - 360 := by
    rw [show (-180 : ℚ) - (b0 + 360) = (-180 - b0) - ((360 : ℤ) : ℚ) by push_cast; ring,
      Int.ceil_sub_int]
  omega

/-- From src/twms/bbox.py, `normalize`: wrap longitudes, swap descending
latitudes and report the vertical flip. -/
def normalize (b : QBbox) : QBbox × Bool :=
  let l := normLoop b.1 b.2.2.1
  let n2 : ℚ := if l.1 > l.2 then l.2 + 360 else l.2
  if b.2.1 > b.2.2.2 then ((l.1, b.2.2.2, n2, b.2.1), true)
  else ((l.1, b.2.1, n2, b.2.2.2), false)

/-! ## Tile file cache, from src/twms/fetchers.py class TileFile -/

/-- Filesystem state for one tile key: optional image file (content bytes
and mtime) and optional TNE marker file (mtime). -/
structure TileState where
  image : Option (List ℕ × ℚ)
  tne : Option ℚ
deriving DecidableEq

/-- `TileFile.set` (src/twms/fetchers.py lines 89-103).  A truthy blob is
written with `Path.write_bytes` and the TNE file is unlinked; a falsy blob
(`None` or the empty byte string, Python truthiness) touches the TNE file
and leaves the image file alone. -/
def TileFile.set (s : TileState) (now : ℚ) (blob : Option (List ℕ)) : TileState :=
  match blob with
  | some bs =>
    if bs = [] then { s with tne := some now }
    else { image := some (bs, now), tne := none }
  | none => { s with tne := some now }

/-- `TileFile.delete` (src/twms/fetchers.py lines 105-108). -/
def TileFile.delete (_s : TileState) : TileState :=
  { image := none, tne := none }

/-- `TileFile.exists` (src/twms/fetchers.py lines 110-113): only the image
file is checked. -/
def TileFile.exists (s : TileState) : Bool :=
  s.image.isSome

/-- `TileFile.needs_fetch` (src/twms/fetchers.py lines 115-137).  The TNE
file is consulted first; `if self.ttl and ...` makes a `None` or zero ttl
falsy, so only a nonzero ttl is compared against the file age. -/
def TileFile.needs_fetch (ttl : Option ℚ) (now : ℚ) (s : TileState) : Bool :=
  match s.tne with
  | some m =>
    match ttl with
    | some t => decide (t ≠ 0) && decide (t < now - m)
    | none => false
  | none =>
    match s.image with
    | some im =>
      match ttl with
      | some t => decide (t ≠ 0) && decide (t < now - im.2)
      | none => false
    | none => true

/-! ## HTTP session and retry, from src/twms/fetchers.py lines 140-230 -/

/-- Response to one `opener_director.open` call: HTTP status and body. -/
structure HttpResp where
  status : ℕ
  body : List ℕ
deriving DecidableEq

/-- Outcome of the i-th `opener_director.open` call: a 2xx-ish response, an
`urllib.error.HTTPError` (carrying status and body), or a transport failure
(`urllib.error.URLError` or `TimeoutError`). -/
inductive NetOutcome where
  | ok (r : HttpResp)
  | httpError (r : HttpResp)
  | transport
deriving DecidableEq

/-- Body of `HttpSessionDirector.get` for attempt `i`: `HTTPError` is
suppressed and returned as a response object; transport errors propagate
(`none`). -/
def HttpSessionDirector.get_once (outcomes : ℕ → NetOutcome) (i : ℕ) : Option HttpResp :=
  match outcomes i with
  | NetOutcome.ok r => some r
  | NetOutcome.httpError r => some r
  | NetOutcome.transport => none

/-- The `while True` loop of the `retry_opener` wrapper
(src/twms/fetchers.py lines 151-167) around `get_once`.  Returns the final
result (`none` means the transport error was re-raised), the list of
back-off sleeps performed, and the total number of attempts made. -/
def retry_loop (outcomes : ℕ → NetOutcome) (backoff : ℕ) :
    ℕ → ℕ → ℕ → List ℕ → Option HttpResp × List ℕ × ℕ
  | mtries, i, mdelay, sleeps =>
    match HttpSessionDirector.get_once outcomes i with
    | some r => (some r, sleeps, i + 1)
    | none =>
      match mtries with
      | 0 => (none, sleeps, i + 1)
      | Nat.succ k => retry_loop outcomes backoff k (i + 1) (mdelay * backoff) (sleeps ++ [mdelay])

/-- `HttpSessionDirector.get` as decorated by `@retry_opener()` with the
default parameters `tries=3, delay=3, backoff=2`. -/
def HttpSessionDirector.get (outcomes : ℕ → NetOutcome) : Option HttpResp × List ℕ × ℕ :=
  retry_loop outcomes 2 3 0 3 []

/-! ## Per-layer tile fetcher, from src/twms/fetchers.py class TileFetcher -/

/-- The `dead_tile` criterion of a layer: optional HTTP status and optional
collection of dead md5 digests. -/
structure DeadTile where
  http_status : Option ℕ
  md5 : Option (List String)
deriving DecidableEq

/-- The layer fields consulted by `TileFetcher.tms`. `has_remote` stands
for `"remote_url" in self.layer`. -/
structure Layer where
  min_zoom : ℤ
  max_zoom : ℤ
  mimetype : String
  dead_tile : Option DeadTile
  has_remote : Bool
  cache_ttl : Option ℚ
deriving DecidableEq

/-- A decoded PIL image: the detected format mimetype and an abstract pixel
handle. -/
structure Img where
  mimetype : String
  data : ℕ
deriving DecidableEq

/-- Pure library functions used by `TileFetcher.tms`: `hashlib.md5`,
`PIL.Image.open` followed by `load` (`none` when the bytes are not a
recognised image), and `im_convert`. -/
structure Oracles where
  md5 : List ℕ → String
  decode : List ℕ → Option Img
  convert : Img → String → List ℕ

/-- The `"http_status" in dead_tile and status == dead_tile["http_status"]`
test (src/twms/fetchers.py lines 340-343). -/
def dead_status (L : Layer) (st : ℕ) : Bool :=
  match L.dead_tile with
  | some dt => decide (dt.http_status = some st)
  | none => false

/-- The `"md5" in dead_tile and resp_md5 in dead_tile["md5"]` test
(src/twms/fetchers.py lines 350-353). -/
def dead_md5 (L : Layer) (h : String) : Bool :=
  match L.dead_tile with
  | some dt =>
    match dt.md5 with
    | some l => decide (h ∈ l)
    | none => false
  | none => false

/-- Lines 411-421 of src/twms/fetchers.py: after a failed or skipped fetch,
serve the cached image if it exists and decodes; `PIL` failures are caught
as `OSError` and give `None`. -/
def cache_fallback (O : Oracles) (s : TileState) : Option Img × TileState :=
  match s.image with
  | some im => (O.decode im.1, s)
  | none => (none, s)

/-- `TileFetcher.tms` (src/twms/fetchers.py lines 258-421) as a function of
the layer, the library oracles, the upstream GET outcome (`none` is the
`URLError` path), the current time, the cache state of the requested tile
and the zoom.  Returns the served image (or `none`) and the new cache
state. -/
def TileFetcher.tms (L : Layer) (O : Oracles) (resp : Option HttpResp)
    (now : ℚ) (s : TileState) (z : ℤ) : Option Img × TileState :=
  if z < L.min_zoom ∨ z > L.max_zoom then (none, s)
  else if L.has_remote && TileFile.needs_fetch L.cache_ttl now s then
    match resp with
    | none => cache_fallback O s
    | some r =>
      if r.status = 404 then (none, TileFile.set s now none)
      else if r.status = 403 then (none, s)
      else if dead_status L r.status then (none, TileFile.set s now none)
      else if dead_md5 L (O.md5 r.body) then (none, TileFile.set s now none)
      else
        match O.decode r.body with
        | some im =>
          if im.mimetype = L.mimetype then (some im, TileFile.set s now (some r.body))
          else (some im, TileFile.set s now (some (O.convert im L.mimetype)))
        | none => cache_fallback O s
  else cache_fallback O s

/-! ## Tile engine coordinate handling, from src/twms/twms.py -/

/-- Coordinate handling of `ImageryHandler.tile_image` (src/twms/twms.py
lines 413-436): `x = x % (2 ** (z - 1))`, then `y` out of
`[0, 2 ** (z - 1))` returns `None`.  The remainder of the method (bbox
intersection test, LRU, disk cache, downscale, fetcher, upscale) is a
deterministic function of the layer state and the reduced coordinates and
is abstracted as `rest`.  The internal `z` is the request zoom plus one
(src/twms/twms.py line 121). -/
def ImageryHandler.tile_image {α : Type} (rest : ℕ → ℤ → ℤ → Option α)
    (z : ℕ) (x y : ℤ) : Option α :=
  let x1 := x % ((2 : ℤ) ^ (z - 1))
  if y < 0 ∨ y ≥ (2 : ℤ) ^ (z - 1) then none
  else rest z x1 y

/-! ## Projection and tile math, from src/twms/projections.py

Python floats are idealised as real numbers. -/

/-- The projections with pure python transformers and aliases collapsed:
the supported set of spec section 4.2.  The other `projs` entries have no
entry in `pure_python_transformers`, so `transform` raises
`NotImplementedError` for them and config load rejects them. -/
inductive SRS where
  | e4326
  | e3857
  | e3395
deriving DecidableEq

/-- `math.radians`. -/
noncomputable def radians (d : ℝ) : ℝ := d * Real.pi / 180

/-- `math.degrees`. -/
noncomputable def degrees (r : ℝ) : ℝ := r * 180 / Real.pi

/-- `_c4326t3857` (src/twms/projections.py lines 67-76). -/
noncomputable def c4326t3857 (lon lat : ℝ) : ℝ × ℝ :=
  (lon * 111319.49079327358,
    Real.log (Real.tan (radians lat) + 1 / Real.cos (radians lat))
      / Real.pi * 20037508.342789244)

/-- `_c3857t4326` (src/twms/projections.py lines 79-83). -/
noncomputable def c3857t4326 (lon lat : ℝ) : ℝ × ℝ :=
  (lon / 111319.49079327358,
    degrees (Real.arcsin (Real.tanh (lat / 20037508.342789244 * Real.pi))))

/-- `_c4326t3395` (src/twms/projections.py lines 86-100).  `math.pow` with
a real exponent is `Real.rpow`. -/
noncomputable def c4326t3395 (lon lat : ℝ) : ℝ × ℝ :=
  let E : ℝ := 0.0818191908426
  let tmp := Real.tan (0.78539816339744830962 + radians lat / 2)
  let pow_tmp :=
    (Real.tan (0.78539816339744830962 + Real.arcsin (E * Real.sin (radians lat)) / 2)) ^ E
  (lon * 111319.49079327358, 6378137.0 * Real.log (tmp / pow_tmp))

/-- The `while abs(dphi) > TOL and i > 0` iteration inside `_c3395t4326`
(src/twms/projections.py lines 118-128). -/
noncomputable def phi_iter (ts eccent eccnth : ℝ) : ℕ → ℝ → ℝ → ℝ
  | 0, _, Phi => Phi
  | Nat.succ k, dphi, Phi =>
    if |dphi| > 1e-7 then
      let con := eccent * Real.sin Phi
      let dphi1 := 1.5707963267948966
        - 2.0 * Real.arctan (ts * ((1.0 - con) / (1.0 + con)) ^ eccnth) - Phi
      phi_iter ts eccent eccnth k dphi1 (Phi + dphi1)
    else Phi

/-- `_c3395t4326` (src/twms/projections.py lines 103-131). -/
noncomputable def c3395t4326 (lon lat : ℝ) : ℝ × ℝ :=
  let r_major : ℝ := 6378137.000
  let temp : ℝ := 6356752.3142 / 6378137.000
  let es : ℝ := 1.0 - temp * temp
  let eccent := Real.sqrt es
  let ts := Real.exp (-lat / r_major)
  let Phi0 := 1.5707963267948966 - 2.0 * Real.arctan ts
  (lon / 111319.49079327358, degrees (phi_iter ts eccent (0.5 * eccent) 15 0.1 Phi0))

/-- EPSG:4326 bounds of the `projs` table entries for the supported set. -/
noncomputable def projBounds : SRS → ℝ × ℝ × ℝ × ℝ
  | SRS.e4326 => (-180, -90, 180, 90)
  | SRS.e3857 => (-180, -85.0511287798, 180, 85.0511287798)
  | SRS.e3395 => (-180, -85.0840591556, 180, 85.0840590501)

/-- `from4326` = `transform(line, "EPSG:4326", srs)` specialised to a
single point; the `srs1 == srs2` early return of `transform` gives the
identity for EPSG:4326. -/
noncomputable def from4326point (srs : SRS) (p : ℝ × ℝ) : ℝ × ℝ :=
  match srs with
  | SRS.e4326 => p
  | SRS.e3857 => c4326t3857 p.1 p.2
  | SRS.e3395 => c4326t3395 p.1 p.2

/-- `to4326` = `transform(line, srs, "EPSG:4326")` specialised to a single
point. -/
noncomputable def to4326point (srs : SRS) (p : ℝ × ℝ) : ℝ × ℝ :=
  match srs with
  | SRS.e4326 => p
  | SRS.e3857 => c3857t4326 p.1 p.2
  | SRS.e3395 => c3395t4326 p.1 p.2

/-- `from4326` on a flat 4-tuple: `transform` chunks it into the two
corner points and transforms each. -/
noncomputable def from4326bbox (srs : SRS) (b : ℝ × ℝ × ℝ × ℝ) : ℝ × ℝ × ℝ × ℝ :=
  let p := from4326point srs (b.1, b.2.1)
  let q := from4326point srs (b.2.2.1, b.2.2.2)
  (p.1, p.2, q.1, q.2)

/-- The projected bounds of a projection, as both `coords_by_tile` and
`tile_by_coords` compute them: `from4326(projs[srs]["bounds"], srs)`. -/
noncomputable def projectedBounds (srs : SRS) : ℝ × ℝ × ℝ × ℝ :=
  from4326bbox srs (projBounds srs)

/-- `coords_by_tile` (src/twms/projections.py lines 183-195). -/
noncomputable def coords_by_tile (z : ℕ) (x y : ℤ) (srs : SRS) : ℝ × ℝ :=
  let nt : ℝ × ℝ := ((x : ℝ) / 2 ^ z, 1 - (y : ℝ) / 2 ^ z)
  let pb := projectedBounds srs
  let maxp : ℝ × ℝ := (pb.2.2.1 - pb.1, pb.2.2.2 - pb.2.1)
  to4326point srs (nt.1 * maxp.1 + pb.1, nt.2 * maxp.2 + pb.2.1)

/-- `tile_by_coords` (src/twms/projections.py lines 198-218). -/
noncomputable def tile_by_coords (lon lat : ℝ) (zoom : ℕ) (srs : SRS) : ℝ × ℝ :=
  let pb := projectedBounds srs
  let point := from4326point srs (lon, lat)
  let maxp : ℝ × ℝ := (pb.2.2.1 - pb.1, pb.2.2.2 - pb.2.1)
  let norm : ℝ × ℝ := ((point.1 - pb.1) / maxp.1, (point.2 - pb.2.1) / maxp.2)
  (norm.1 * 2 ^ zoom, (1 - norm.2) * 2 ^ zoom)

/-- `bbox_by_tile` (src/twms/projections.py lines 151-155). -/
noncomputable def bbox_by_tile (z : ℕ) (x y : ℤ) (srs : SRS) : ℝ × ℝ × ℝ × ℝ :=
  let a := coords_by_tile z x y srs
  let b := coords_by_tile z (x + 1) (y + 1) srs
  (a.1, b.2, b.1, a.2)

/-- `tile_by_bbox` (src/twms/projections.py lines 142-148).  The
antimeridian wrap adds `2 ** (zoom - 1)`; with Python floats that is
`0.5` at zoom 0, hence the integer exponent. -/
noncomputable def tile_by_bbox (bbox : ℝ × ℝ × ℝ × ℝ) (zoom : ℕ) (srs : SRS) :
    ℝ × ℝ × ℝ × ℝ :=
  let a := tile_by_coords bbox.1 bbox.2.1 zoom srs
  let b := tile_by_coords bbox.2.2.1 bbox.2.2.2 zoom srs
  let b1 := if b.1 < a.1 then b.1 + (2 : ℝ) ^ ((zoom : ℤ) - 1) else b.1
  (a.1, a.2, b1, b.2)

end Twms

namespace Twms

/-! ## Theorems -/

/-- Key identity for the spherical Mercator inverse pair:
`log (tan (arcsin (tanh u)) + 1 / cos (arcsin (tanh u))) = u`. -/
theorem log_tanh_aux (u : ℝ) :
    Real.log (Real.tan (Real.arcsin (Real.tanh u))
      + 1 / Real.cos (Real.arcsin (Real.tanh u))) = u := by
  have hc : (0 : ℝ) < Real.cosh u := Real.cosh_pos u
  have hsq : Real.sqrt (1 - Real.tanh u ^ 2) = 1 / Real.cosh u := by
    have h1 : 1 - Real.tanh u ^ 2 = (1 / Real.cosh u) ^ 2 := by
      rw [Real.tanh_eq_sinh_div_cosh]
      field_simp
    rw [h1, Real.sqrt_sq (by positivity)]
  rw [Real.tan_arcsin, Real.cos_arcsin, hsq]
  have hexp : Real.tanh u / (1 / Real.cosh u) + 1 / (1 / Real.cosh u) = Real.exp u := by
    rw [Real.tanh_eq_sinh_div_cosh, ← Real.sinh_add_cosh u]
    field_simp
  rw [hexp, Real.log_exp]

/-- Facts about the latitude bound angle of EPSG:3857. -/
theorem merc_angle_facts :
    0 < Real.cos (radians 85.0511287798)
      ∧ Real.cos (radians 85.0511287798) < 1
      ∧ 0 < Real.tan (radians 85.0511287798) := by
  have hpi := Real.pi_pos
  have hr0 : 0 < radians 85.0511287798 := by unfold radians; positivity
  have hr2 : radians 85.0511287798 < Real.pi / 2 := by unfold radians; nlinarith
  have hcos : 0 < Real.cos (radians 85.0511287798) :=
    Real.cos_pos_of_mem_Ioo ⟨by linarith, hr2⟩
  have hcos1 : Real.cos (radians 85.0511287798) < 1 := by
    have h := Real.cos_lt_cos_of_nonneg_of_le_pi (le_refl 0) (by linarith) hr0
    rwa [Real.cos_zero] at h
  exact ⟨hcos, hcos1, Real.tan_pos_of_pos_of_lt_pi_div_two hr0 hr2⟩

/-- The projected y coordinate of the EPSG:3857 latitude bound is
positive. -/
theorem merc_y_pos : 0 < (c4326t3857 0 85.0511287798).2 := by
  obtain ⟨hcos, hcos1, htan⟩ := merc_angle_facts
  have hone : 1 < 1 / Real.cos (radians 85.0511287798) := by
    rw [lt_div_iff₀ hcos]
    linarith
  have h1 : 1 < Real.tan (radians 85.0511287798) + 1 / Real.cos (radians 85.0511287798) := by
    linarith
  exact mul_pos (div_pos (Real.log_pos h1) Real.pi_pos) (by norm_num)

/-- The projected y coordinate of EPSG:3857 is odd in the latitude, at the
latitude bound. -/
theorem merc_y_odd :
    (c4326t3857 0 (-85.0511287798)).2 = -(c4326t3857 0 85.0511287798).2 := by
  obtain ⟨hcos, _hcos1, _htan⟩ := merc_angle_facts
  simp only [c4326t3857]
  rw [show radians (-85.0511287798) = -(radians 85.0511287798) by unfold radians; ring]
  rw [Real.tan_neg, Real.cos_neg]
  have hmul : (-Real.tan (radians 85.0511287798) + 1 / Real.cos (radians 85.0511287798))
      * (Real.tan (radians 85.0511287798) + 1 / Real.cos (radians 85.0511287798)) = 1 := by
    rw [Real.tan_eq_sin_div_cos]
    field_simp
    nlinarith [Real.sin_sq_add_cos_sq (radians 85.0511287798)]
  rw [eq_inv_of_mul_eq_one_left hmul, Real.log_inv]
  ring

/-- The closed-form EPSG:3857 forward transform is a left inverse of the
closed-form inverse transform on the y coordinate. -/
theorem merc_y_left_inv (b : ℝ) : (c4326t3857 0 ((c3857t4326 0 b).2)).2 = b := by
  have hdr : ∀ θ : ℝ, radians (degrees θ) = θ := by
    intro θ
    unfold radians degrees
    field_simp
  simp only [c4326t3857, c3857t4326]
  rw [hdr, log_tanh_aux]
  field_simp
  ring

/-- Generic tile round trip: if a projection acts componentwise with a
forward pair `(g, h)` and inverse pair `(g1, h1)`, `g` and `h` undo `g1`
and `h1`, and the projected bounds are nondegenerate, then
`tile_by_bbox (bbox_by_tile z x y P) z P` is `(x, y + 1, x + 1, y)` - the
south edge of the tile is row `y + 1` because tile rows grow southwards
while latitude grows northwards. -/
theorem roundtrip_core (P : SRS) (g h g1 h1 : ℝ → ℝ)
    (hf : ∀ p : ℝ × ℝ, from4326point P p = (g p.1, h p.2))
    (ht : ∀ p : ℝ × ℝ, to4326point P p = (g1 p.1, h1 p.2))
    (hg : ∀ a, g (g1 a) = a)
    (hh : ∀ b, h (h1 b) = b)
    (hm0 : g (projBounds P).2.2.1 - g (projBounds P).1 ≠ 0)
    (hm1 : h (projBounds P).2.2.2 - h (projBounds P).2.1 ≠ 0)
    (z : ℕ) (x y : ℤ) :
    tile_by_bbox (bbox_by_tile z x y P) z P
      = ((x : ℝ), (y : ℝ) + 1, (x : ℝ) + 1, (y : ℝ)) := by
  have h2z : ((2 : ℝ) ^ z) ≠ 0 := by positivity
  have hpb : projectedBounds P
      = (g (projBounds P).1, h (projBounds P).2.1,
          g (projBounds P).2.2.1, h (projBounds P).2.2.2) := by
    simp only [projectedBounds, from4326bbox, hf]
  set p0 := g (projBounds P).1 with hp0
  set p1 := h (projBounds P).2.1 with hp1
  set p2 := g (projBounds P).2.2.1 with hp2
  set p3 := h (projBounds P).2.2.2 with hp3
  have hcoords : ∀ (t u : ℤ), coords_by_tile z t u P
      = (g1 ((t : ℝ) / 2 ^ z * (p2 - p0) + p0),
          h1 ((1 - (u : ℝ) / 2 ^ z) * (p3 - p1) + p1)) := by
    intro t u
    simp only [coords_by_tile, hpb, ht]
  have htbc : ∀ (lon lat : ℝ), tile_by_coords (g1 lon) (h1 lat) z P
      = ((lon - p0) / (p2 - p0) * 2 ^ z, (1 - (lat - p1) / (p3 - p1)) * 2 ^ z) := by
    intro lon lat
    simp only [tile_by_coords, hpb, hf, hg, hh]
  have hX : ∀ t : ℤ, ((t : ℝ) / 2 ^ z * (p2 - p0) + p0 - p0) / (p2 - p0) * 2 ^ z = (t : ℝ) := by
    intro t
    field_simp
    ring
  have hY : ∀ u : ℤ,
      (1 - ((1 - (u : ℝ) / 2 ^ z) * (p3 - p1) + p1 - p1) / (p3 - p1)) * 2 ^ z = (u : ℝ) := by
    intro u
    field_simp
    ring
  have hfin : tile_by_bbox (bbox_by_tile z x y P) z P
      = (((x : ℤ) : ℝ), (((y + 1 : ℤ) : ℝ)), (((x + 1 : ℤ) : ℝ)), ((y : ℤ) : ℝ)) := by
    simp only [tile_by_bbox, bbox_by_tile, hcoords, htbc, hX, hY]
    rw [if_neg (by push_cast; linarith)]
  rw [hfin]
  push_cast
  rfl

/-- C1 counterexample: already for EPSG:4326 at `z=1, x=0, y=0` the round
trip gives `(0, 1, 1, 0)`, not `(0, 0, 1, 1)`: `bbox_by_tile` returns
(west, south, east, north) and the south edge is tile row `y + 1`. -/
theorem claim1_counterexample :
    tile_by_bbox (bbox_by_tile 1 0 0 SRS.e4326) 1 SRS.e4326 ≠ ((0 : ℝ), 0, 1, 1) := by
  have hval : tile_by_bbox (bbox_by_tile 1 0 0 SRS.e4326) 1 SRS.e4326 = ((0 : ℝ), 1, 1, 0) := by
    norm_num [tile_by_bbox, bbox_by_tile, coords_by_tile, tile_by_coords, projectedBounds,
      from4326bbox, from4326point, to4326point, projBounds]
  rw [hval]
  intro hcon
  simp [Prod.ext_iff] at hcon

/-- C1 (amended): for the projections with exact closed-form inverse
transforms (EPSG:4326 and EPSG:3857), the round trip
`tile_by_bbox (bbox_by_tile z x y P) z P` returns `(x, y + 1, x + 1, y)`:
the x components come back as claimed while the two tile-row components
come back as `(y + 1, y)` because `bbox_by_tile` orders the bbox south to
north and tile rows grow southwards.  (EPSG:3395 computes its inverse by a
bounded fixed-point iteration, so its round trip is only approximate and
is not covered by this exact statement.) -/
theorem claim1_theorem (P : SRS) (hP : P ≠ SRS.e3395) (z : ℕ) (x y : ℤ)
    (_hx0 : 0 ≤ x) (_hx1 : x < 2 ^ z) (_hy0 : 0 ≤ y) (_hy1 : y < 2 ^ z) :
    tile_by_bbox (bbox_by_tile z x y P) z P
      = ((x : ℝ), (y : ℝ) + 1, (x : ℝ) + 1, (y : ℝ)) := by
  cases P with
  | e3395 => exact absurd rfl hP
  | e4326 =>
    exact roundtrip_core SRS.e4326 (fun a => a) (fun b => b) (fun a => a) (fun b => b)
      (fun p => rfl) (fun p => rfl) (fun a => rfl) (fun b => rfl)
      (by norm_num [projBounds]) (by norm_num [projBounds]) z x y
  | e3857 =>
    refine roundtrip_core SRS.e3857
      (fun a => a * 111319.49079327358) (fun b => (c4326t3857 0 b).2)
      (fun a => a / 111319.49079327358) (fun b => (c3857t4326 0 b).2)
      (fun p => rfl) (fun p => rfl)
      (fun a => div_mul_cancel₀ a (by norm_num)) merc_y_left_inv ?_ ?_ z x y
    · norm_num [projBounds]
    · show (c4326t3857 0 (projBounds SRS.e3857).2.2.2).2
          - (c4326t3857 0 (projBounds SRS.e3857).2.1).2 ≠ 0
      simp only [projBounds]
      rw [merc_y_odd, sub_neg_eq_add]
      exact ne_of_gt (by linarith [merc_y_pos])

/-- C1 witness: the amended round trip at EPSG:3857, `z=2, x=1, y=1`. -/
theorem claim1_witness :
    (SRS.e3857 ≠ SRS.e3395) ∧ ((0 : ℤ) ≤ 1) ∧ ((1 : ℤ) < 2 ^ 2)
      ∧ ((0 : ℤ) ≤ 1) ∧ ((1 : ℤ) < 2 ^ 2)
      ∧ tile_by_bbox (bbox_by_tile 2 1 1 SRS.e3857) 2 SRS.e3857
        = ((((1 : ℤ) : ℝ)), (((1 : ℤ) : ℝ)) + 1, (((1 : ℤ) : ℝ)) + 1, (((1 : ℤ) : ℝ))) :=
  ⟨by decide, by decide, by decide, by decide, by decide,
    claim1_theorem SRS.e3857 (by decide) 2 1 1 (by decide) (by decide) (by decide) (by decide)⟩

/-- C3 counterexample: the claim quantifies over every byte string, but for
the empty byte string `TileFile.set` takes the falsy branch of `if blob:`,
touches the TNE marker and writes no image, so after `set(b)` with `b` empty
the TNE marker exists and the image file does not hold `b`. -/
theorem claim3_counterexample :
    ¬ ((TileFile.set ⟨none, none⟩ 0 (some [])).tne = none
      ∧ (TileFile.set ⟨none, none⟩ 0 (some [])).image = some ([], 0)) := by
  decide

/-- C3 (amended): for every nonempty byte string `b`, after
`TileFile.set(b)` returns, the TNE marker does not exist and the image file
exists with content `b`. -/
theorem claim3_theorem (s : TileState) (now : ℚ) (b : List ℕ) (hb : b ≠ []) :
    (TileFile.set s now (some b)).tne = none
      ∧ (TileFile.set s now (some b)).image = some (b, now) := by
  simp [TileFile.set, hb]

/-- C3 witness: the amended theorem applied to the one-byte string `[37]`
over an empty cache state. -/
theorem claim3_witness :
    ([37] ≠ ([] : List ℕ))
      ∧ ((TileFile.set ⟨none, none⟩ 0 (some [37])).tne = none
        ∧ (TileFile.set ⟨none, none⟩ 0 (some [37])).image = some ([37], 0)) :=
  ⟨by decide, claim3_theorem ⟨none, none⟩ 0 [37] (by decide)⟩

/-- C4: `needs_fetch` is true exactly when neither file exists, or the
file the method consults (the TNE marker first, else the image) is older
than a non-nil ttl; with a nil ttl any existing file suffices for false.
The ttl zero case is excluded here (Python truthiness makes it behave as
nil; that is claim C9). -/
theorem claim4_theorem (ttl : Option ℚ) (now : ℚ) (s : TileState) (h : ttl ≠ some 0) :
    (TileFile.needs_fetch ttl now s = true ↔
      (s.tne = none ∧ s.image = none)
      ∨ (∃ m t, s.tne = some m ∧ ttl = some t ∧ t < now - m)
      ∨ (s.tne = none ∧ ∃ b m t, s.image = some (b, m) ∧ ttl = some t ∧ t < now - m))
    ∧ (ttl = none → (s.tne ≠ none ∨ s.image ≠ none) →
        TileFile.needs_fetch ttl now s = false) := by
  obtain ⟨img, tne⟩ := s
  constructor
  · cases tne with
    | some m =>
      cases ttl with
      | some t =>
        have ht : t ≠ 0 := by simpa using h
        simp [TileFile.needs_fetch, ht]
      | none => simp [TileFile.needs_fetch]
    | none =>
      cases img with
      | some im =>
        obtain ⟨b, m⟩ := im
        cases ttl with
        | some t =>
          have ht : t ≠ 0 := by simpa using h
          simp [TileFile.needs_fetch, ht]
          aesop
        | none => simp [TileFile.needs_fetch]
      | none =>
        cases ttl with
        | some t => simp [TileFile.needs_fetch]
        | none => simp [TileFile.needs_fetch]
  · rintro rfl hex
    cases tne with
    | some m => simp [TileFile.needs_fetch]
    | none =>
      cases img with
      | some im => simp [TileFile.needs_fetch]
      | none => simp at hex

/-- C4 witness: ttl 5 seconds, a TNE marker written at mtime 2 consulted at
time 10 (age 8 > 5). -/
theorem claim4_witness :
    (some (5 : ℚ) ≠ some (0 : ℚ))
      ∧ ((TileFile.needs_fetch (some 5) 10 ⟨none, some 2⟩ = true ↔
          ((⟨none, some 2⟩ : TileState).tne = none ∧ (⟨none, some 2⟩ : TileState).image = none)
          ∨ (∃ m t, (⟨none, some 2⟩ : TileState).tne = some m ∧ (some (5:ℚ)) = some t ∧ t < 10 - m)
          ∨ ((⟨none, some 2⟩ : TileState).tne = none ∧ ∃ b m t,
              (⟨none, some 2⟩ : TileState).image = some (b, m) ∧ (some (5:ℚ)) = some t ∧ t < 10 - m))
        ∧ ((some (5:ℚ)) = none → ((⟨none, some 2⟩ : TileState).tne ≠ none
              ∨ (⟨none, some 2⟩ : TileState).image ≠ none) →
            TileFile.needs_fetch (some 5) 10 ⟨none, some 2⟩ = false)) :=
  ⟨by decide, claim4_theorem (some 5) 10 ⟨none, some 2⟩ (by decide)⟩

/-- C9: a ttl of zero is falsy in `if self.ttl and ...`, so `needs_fetch`
with ttl 0 behaves exactly like ttl `None`: any existing image or TNE makes
it false, regardless of age. -/
theorem claim9_theorem (now : ℚ) (s : TileState) :
    TileFile.needs_fetch (some 0) now s = TileFile.needs_fetch none now s
      ∧ ((s.tne ≠ none ∨ s.image ≠ none) → TileFile.needs_fetch (some 0) now s = false) := by
  obtain ⟨img, tne⟩ := s
  cases tne <;> cases img <;> simp [TileFile.needs_fetch]

/-- C9 witness: an image written at mtime 0 queried at time 100 with ttl 0
is not refetched. -/
theorem claim9_witness :
    ((⟨some ([3], 0), none⟩ : TileState).tne ≠ none
        ∨ (⟨some ([3], 0), none⟩ : TileState).image ≠ none)
      ∧ TileFile.needs_fetch (some 0) 100 ⟨some ([3], 0), none⟩ = false :=
  ⟨Or.inr (by decide), (claim9_theorem 100 ⟨some ([3], 0), none⟩).2 (Or.inr (by decide))⟩

/-- C10: the legacy `add` of src/bbox.py returns
`min(b1[3], b2[3])` as the fourth component, so the result does not contain
both inputs: the point (1,1) lies in the second input but not in
`add((0,0,0,0), (1,1,1,1))`.  The current `add` of src/twms/bbox.py uses
`max` and does contain it; the legacy code contradicts its own docstring
("Returns bbox that contains two bboxes"). -/
theorem claim10_theorem :
    add_legacy (0, 0, 0, 0) (1, 1, 1, 1) = (0, 0, 1, 0)
      ∧ point_is_in (1, 1, 1, 1) (1, 1) = true
      ∧ point_is_in (add_legacy (0, 0, 0, 0) (1, 1, 1, 1)) (1, 1) = false
      ∧ point_is_in (add (0, 0, 0, 0) (1, 1, 1, 1)) (1, 1) = true := by
  decide

/-- C8: `ImageryHandler.tile_image` wraps `x` silently: entered at the
internal zoom `z + 1` (the handler adds one to the request zoom), the
result at `x` equals the result at `x mod 2 ^ z`, because line 425 reduces
`x` modulo `2 ** (z - 1)` before any other use of `x`. -/
theorem claim8_theorem {α : Type} (rest : ℕ → ℤ → ℤ → Option α) (z : ℕ) (x y : ℤ)
    (_hy0 : 0 ≤ y) (_hy1 : y < 2 ^ z) :
    ImageryHandler.tile_image rest (z + 1) x y
      = ImageryHandler.tile_image rest (z + 1) (x % 2 ^ z) y := by
  have hmod : x % (2 : ℤ) ^ z % (2 : ℤ) ^ z = x % (2 : ℤ) ^ z :=
    Int.emod_emod_of_dvd x dvd_rfl
  simp [ImageryHandler.tile_image, Nat.add_sub_cancel, hmod]

/-- C8 witness: request zoom 1 (internal zoom 2), x 5 wraps to 1. -/
theorem claim8_witness :
    ((0 : ℤ) ≤ 0) ∧ ((0 : ℤ) < 2 ^ 1)
      ∧ ImageryHandler.tile_image (fun z x y => some (z, x, y)) (1 + 1) 5 0
        = ImageryHandler.tile_image (fun z x y => some (z, x, y)) (1 + 1) (5 % 2 ^ 1) 0 :=
  ⟨by decide, by decide, claim8_theorem (fun z x y => some (z, x, y)) 1 5 0 (by decide) (by decide)⟩

/-- Attempt count bound for the retry loop: starting with `mtries` retries
left at attempt index `i`, at most `mtries + 1` further attempts happen. -/
theorem retry_loop_attempts (outcomes : ℕ → NetOutcome) (backoff : ℕ) :
    ∀ (mtries i mdelay : ℕ) (sleeps : List ℕ),
      (retry_loop outcomes backoff mtries i mdelay sleeps).2.2 ≤ i + mtries + 1 := by
  intro mtries
  induction mtries with
  | zero =>
    intro i mdelay sleeps
    cases h : HttpSessionDirector.get_once outcomes i <;> simp [retry_loop, h]
  | succ k ih =>
    intro i mdelay sleeps
    cases h : HttpSessionDirector.get_once outcomes i with
    | some r => simp [retry_loop, h]
    | none =>
      have := ih (i + 1) (mdelay * backoff) (sleeps ++ [mdelay])
      simp [retry_loop, h]
      omega

/-- C6 counterexample: three transport failures followed by a success.  The
decorated `get` makes a fourth attempt and succeeds, after back-off sleeps
of 3, 6 and 12 seconds; the claim allows at most 3 attempts in total before
the error propagates. -/
theorem claim6_counterexample :
    HttpSessionDirector.get
        (fun i => if i < 3 then NetOutcome.transport else NetOutcome.ok ⟨200, []⟩)
      = (some ⟨200, []⟩, [3, 6, 12], 4)
      ∧ ¬((4 : ℕ) ≤ 3) := by
  constructor
  · rfl
  · decide

/-- C6 (amended): the session `get` makes at most 4 attempts in total
(`tries=3` counts retries after the first attempt); an `HTTPError` outcome
on the first attempt is returned immediately, with no retry and no sleep;
when every attempt is a transport failure, the error propagates after 4
attempts with exponential back-off sleeps 3, 6, 12. -/
theorem claim6_theorem (outcomes : ℕ → NetOutcome) :
    (HttpSessionDirector.get outcomes).2.2 ≤ 4
      ∧ (∀ r, outcomes 0 = NetOutcome.httpError r →
          HttpSessionDirector.get outcomes = (some r, [], 1))
      ∧ ((∀ k, k < 4 → outcomes k = NetOutcome.transport) →
          HttpSessionDirector.get outcomes = (none, [3, 6, 12], 4)) := by
  refine ⟨?_, ?_, ?_⟩
  · have := retry_loop_attempts outcomes 2 3 0 3 []
    simpa [HttpSessionDirector.get] using this
  · intro r h
    simp [HttpSessionDirector.get, retry_loop, HttpSessionDirector.get_once, h]
  · intro hall
    have h0 := hall 0 (by norm_num)
    have h1 := hall 1 (by norm_num)
    have h2 := hall 2 (by norm_num)
    have h3 := hall 3 (by norm_num)
    simp [HttpSessionDirector.get, retry_loop, HttpSessionDirector.get_once, h0, h1, h2, h3]

/-- C2 counterexample: an upstream 500 response whose body is a valid
image of the layer mimetype.  `TileFetcher.tms` never re-checks the status
after the 404/403/dead-tile branches, so it decodes the 500 body, caches it
and returns it, instead of returning `None` with no write as claimed. -/
theorem claim2_counterexample :
    TileFetcher.tms ⟨0, 19, "image/png", none, true, none⟩
        ⟨fun _ => "h", fun b => if b = [1] then some ⟨"image/png", 0⟩ else none, fun _ _ => []⟩
        (some ⟨500, [1]⟩) 0 ⟨none, none⟩ 10
      = (some ⟨"image/png", 0⟩, ⟨some ([1], 0), none⟩)
      ∧ ¬ ((some (⟨"image/png", 0⟩ : Img)) = none
          ∧ (⟨some ([1], 0), none⟩ : TileState) = (⟨none, none⟩ : TileState)) := by
  constructor
  · rfl
  · decide

/-- C2 (amended): for every upstream response whose status is none of 404,
403 and the dead-tile status, whose md5 is not a dead-tile digest, and
whose body does not decode as an image, `tms` writes neither an image nor
a TNE marker and serves the previously cached image if one exists, else
`None`.  (The code classifies the body by decodability, not by 2xx status:
a non-2xx response with a decodable body is treated as success.) -/
theorem claim2_theorem (L : Layer) (O : Oracles) (r : HttpResp) (now : ℚ)
    (s : TileState) (z : ℤ)
    (hz : ¬(z < L.min_zoom ∨ z > L.max_zoom))
    (hrm : L.has_remote = true)
    (hnf : TileFile.needs_fetch L.cache_ttl now s = true)
    (h404 : r.status ≠ 404) (h403 : r.status ≠ 403)
    (hds : dead_status L r.status = false)
    (hdm : dead_md5 L (O.md5 r.body) = false)
    (hdec : O.decode r.body = none) :
    TileFetcher.tms L O (some r) now s z = cache_fallback O s
      ∧ (cache_fallback O s).2 = s
      ∧ (s.image = none → (cache_fallback O s).1 = none) := by
  refine ⟨?_, ?_, ?_⟩
  · simp [TileFetcher.tms, hz, hrm, hnf, h404, h403, hds, hdm, hdec]
  · cases h : s.image <;> simp [cache_fallback, h]
  · intro h
    simp [cache_fallback, h]

/-- C2 witness: a 500 response with an undecodable body over an empty
cache leaves the state untouched and serves nothing. -/
theorem claim2_witness :
    ¬((10 : ℤ) < 0 ∨ (10 : ℤ) > 19)
      ∧ ((500 : ℕ) ≠ 404) ∧ ((500 : ℕ) ≠ 403)
      ∧ TileFile.needs_fetch none 0 ⟨none, none⟩ = true
      ∧ (TileFetcher.tms ⟨0, 19, "image/png", none, true, none⟩
            ⟨fun _ => "h", fun _ => none, fun _ _ => []⟩ (some ⟨500, [9]⟩) 0 ⟨none, none⟩ 10
          = cache_fallback ⟨fun _ => "h", fun _ => none, fun _ _ => []⟩ ⟨none, none⟩
        ∧ (cache_fallback ⟨fun _ => "h", fun _ => none, fun _ _ => []⟩ ⟨none, none⟩).2
            = (⟨none, none⟩ : TileState)
        ∧ ((⟨none, none⟩ : TileState).image = none →
            (cache_fallback ⟨fun _ => "h", fun _ => none, fun _ _ => []⟩ ⟨none, none⟩).1 = none)) :=
  ⟨by decide, by decide, by decide, by decide,
    claim2_theorem ⟨0, 19, "image/png", none, true, none⟩
      ⟨fun _ => "h", fun _ => none, fun _ _ => []⟩ ⟨500, [9]⟩ 0 ⟨none, none⟩ 10
      (by decide) rfl (by decide) (by decide) (by decide) (by decide) (by decide) rfl⟩

/-- C5 counterexample: a 403 response whose body md5 is a dead-tile digest.
The 403 branch runs before the dead-tile checks, so `tms` returns `None`
without creating the TNE marker the claim requires. -/
theorem claim5_counterexample :
    TileFetcher.tms ⟨0, 19, "image/png", some ⟨none, some ["h"]⟩, true, none⟩
        ⟨fun _ => "h", fun _ => none, fun _ _ => []⟩
        (some ⟨403, [9]⟩) 0 ⟨none, none⟩ 10
      = (none, ⟨none, none⟩)
      ∧ dead_md5 ⟨0, 19, "image/png", some ⟨none, some ["h"]⟩, true, none⟩ "h" = true
      ∧ (⟨none, none⟩ : TileState).tne = none := by
  refine ⟨rfl, by decide, rfl⟩

/-- C5 (amended): whenever the fetched response has a body md5 in
`layer.dead_tile.md5` and its status is not 403, `tms` writes a TNE
marker, leaves the image file untouched and returns `None` (for a 404 or
a dead-tile status the earlier branch gives the same outcome). -/
theorem claim5_theorem (L : Layer) (O : Oracles) (r : HttpResp) (now : ℚ)
    (s : TileState) (z : ℤ)
    (hz : ¬(z < L.min_zoom ∨ z > L.max_zoom))
    (hrm : L.has_remote = true)
    (hnf : TileFile.needs_fetch L.cache_ttl now s = true)
    (h403 : r.status ≠ 403)
    (hdm : dead_md5 L (O.md5 r.body) = true) :
    TileFetcher.tms L O (some r) now s z = (none, { s with tne := some now }) := by
  by_cases h404 : r.status = 404
  · simp [TileFetcher.tms, hz, hrm, hnf, h404, TileFile.set]
  · by_cases hds : dead_status L r.status = true
    · simp [TileFetcher.tms, hz, hrm, hnf, h404, h403, hds, TileFile.set]
    · simp [TileFetcher.tms, hz, hrm, hnf, h404, h403, hds, hdm, TileFile.set]

/-- C5 witness: a 200 response whose body hashes to a dead-tile digest
yields a TNE marker, no image write, and no served tile. -/
theorem claim5_witness :
    ¬((10 : ℤ) < 0 ∨ (10 : ℤ) > 19)
      ∧ ((200 : ℕ) ≠ 403)
      ∧ dead_md5 ⟨0, 19, "image/png", some ⟨none, some ["h"]⟩, true, none⟩ "h" = true
      ∧ TileFetcher.tms ⟨0, 19, "image/png", some ⟨none, some ["h"]⟩, true, none⟩
          ⟨fun _ => "h", fun _ => none, fun _ _ => []⟩ (some ⟨200, [9]⟩) 0 ⟨none, none⟩ 10
        = (none, { (⟨none, none⟩ : TileState) with tne := some 0 }) :=
  ⟨by decide, by decide, by decide,
    claim5_theorem ⟨0, 19, "image/png", some ⟨none, some ["h"]⟩, true, none⟩
      ⟨fun _ => "h", fun _ => none, fun _ _ => []⟩ ⟨200, [9]⟩ 0 ⟨none, none⟩ 10
      (by decide) rfl (by decide) (by decide) (by decide)⟩

/-- The wrap loop of `normalize` is the identity when the first longitude
is already at least -180. -/
theorem normLoop_of_ge (b0 b2 : ℚ) (h : ¬ b0 < -180) : normLoop b0 b2 = (b0, b2) := by
  rw [normLoop]
  simp [h]

/-- C7: for a bbox whose longitudes are valid EPSG:4326 values, `normalize`
returns a bbox with ordered longitudes after at most a single +360 wrap of
the upper longitude, ordered latitudes, and `flip_h` true exactly when the
input latitudes were descending, in which case the two latitudes are
swapped; in particular `normalize (10, 60, -10, 50)` is
`((10, 50, 350, 60), true)`. -/
theorem claim7_theorem :
    (∀ b0 b1 b2 b3 : ℚ, -180 ≤ b0 → b0 ≤ 180 → -180 ≤ b2 → b2 ≤ 180 →
      (normalize (b0, b1, b2, b3)).1.1 ≤ (normalize (b0, b1, b2, b3)).1.2.2.1
        ∧ (normalize (b0, b1, b2, b3)).1.2.1 ≤ (normalize (b0, b1, b2, b3)).1.2.2.2
        ∧ (normalize (b0, b1, b2, b3)).1.1 = b0
        ∧ ((normalize (b0, b1, b2, b3)).1.2.2.1 = b2
            ∨ (normalize (b0, b1, b2, b3)).1.2.2.1 = b2 + 360)
        ∧ ((normalize (b0, b1, b2, b3)).2 = true ↔ b3 < b1)
        ∧ (b3 < b1 → (normalize (b0, b1, b2, b3)).1.2.1 = b3
            ∧ (normalize (b0, b1, b2, b3)).1.2.2.2 = b1))
      ∧ normalize (10, 60, -10, 50) = ((10, 50, 350, 60), true) := by
  constructor
  · intro b0 b1 b2 b3 h0 h1 h2 h3
    have hl : normLoop b0 b2 = (b0, b2) := normLoop_of_ge b0 b2 (by linarith)
    by_cases hf : b3 < b1
    · by_cases hw : b2 < b0
      · simp only [normalize, hl]
        rw [if_pos (show b1 > b3 from hf), if_pos (show b0 > b2 from hw)]
        exact ⟨show b0 ≤ b2 + 360 by linarith, show b3 ≤ b1 by linarith, rfl, Or.inr rfl,
          by simp [hf], fun _ => ⟨rfl, rfl⟩⟩
      · simp only [normalize, hl]
        rw [if_pos (show b1 > b3 from hf), if_neg (show ¬ b0 > b2 from hw)]
        exact ⟨show b0 ≤ b2 by linarith, show b3 ≤ b1 by linarith, rfl, Or.inl rfl,
          by simp [hf], fun _ => ⟨rfl, rfl⟩⟩
    · by_cases hw : b2 < b0
      · simp only [normalize, hl]
        rw [if_neg (show ¬ b1 > b3 from hf), if_pos (show b0 > b2 from hw)]
        exact ⟨show b0 ≤ b2 + 360 by linarith, show b1 ≤ b3 by linarith, rfl, Or.inr rfl,
          by simp [hf], fun h => absurd h hf⟩
      · simp only [normalize, hl]
        rw [if_neg (show ¬ b1 > b3 from hf), if_neg (show ¬ b0 > b2 from hw)]
        exact ⟨show b0 ≤ b2 by linarith, show b1 ≤ b3 by linarith, rfl, Or.inl rfl,
          by simp [hf], fun h => absurd h hf⟩
  · have hl : normLoop 10 (-10) = (10, -10) := normLoop_of_ge 10 (-10) (by norm_num)
    norm_num [normalize, hl]

/-- C7 witness: the general statement applied to the bbox of the spec
example, (10, 60, -10, 50). -/
theorem claim7_witness :
    ((-180 : ℚ) ≤ 10) ∧ ((10 : ℚ) ≤ 180) ∧ ((-180 : ℚ) ≤ -10) ∧ ((-10 : ℚ) ≤ 180)
      ∧ ((normalize (10, 60, -10, 50)).1.1 ≤ (normalize (10, 60, -10, 50)).1.2.2.1
        ∧ (normalize (10, 60, -10, 50)).1.2.1 ≤ (normalize (10, 60, -10, 50)).1.2.2.2
        ∧ (normalize (10, 60, -10, 50)).1.1 = 10
        ∧ ((normalize (10, 60, -10, 50)).1.2.2.1 = -10
            ∨ (normalize (10, 60, -10, 50)).1.2.2.1 = -10 + 360)
        ∧ ((normalize (10, 60, -10, 50)).2 = true ↔ (50 : ℚ) < 60)
        ∧ ((50 : ℚ) < 60 → (normalize (10, 60, -10, 50)).1.2.1 = 50
            ∧ (normalize (10, 60, -10, 50)).1.2.2.2 = 60)) :=
  ⟨by norm_num, by norm_num, by norm_num, by norm_num,
    claim7_theorem.1 10 60 (-10) 50 (by norm_num) (by norm_num) (by norm_num) (by norm_num)⟩

/-- C6 witness: with every attempt failing at the transport level, the
error propagates after 4 attempts and sleeps 3, 6, 12. -/
theorem claim6_witness :
    (∀ k, k < 4 → (fun _ : ℕ => NetOutcome.transport) k = NetOutcome.transport)
      ∧ HttpSessionDirector.get (fun _ => NetOutcome.transport) = (none, [3, 6, 12], 4) :=
  ⟨fun _ _ => rfl, (claim6_theorem (fun _ => NetOutcome.transport)).2.2 (fun _ _ => rfl)⟩
